import Mathlib

/-!
# Liveness servers of the trading system

A shallow embedding of the two programs `cmd/market-pipeline/main.go` and
`cmd/strategy-engine/main.go`.

Each `main` is a straight-line Go function over the packages `os`, `fmt`,
`log` and `net/http`.  It is embedded as a computation in a small monad `Go`
that threads the process state (the default request multiplexer, the
listener acquired so far and the ordered trace of effects) and that can stop
early: by `os.Exit`, by a run-time panic, or by blocking for ever in the
accept loop.  The operating system is an explicit `World`: the environment
and what `http.ListenAndServe` gives back for an address.

The library calls the programs make are embedded after the Go standard
library: the response writer, `http.Error`, `http.Redirect`, the path
cleaning of the multiplexer, the classic `ServeMux` dispatch on `URL.Path`,
and the server-wide handling of `OPTIONS *`.  Go strings are Lean strings.
Not part of the embedding: response headers, the time stamp the logger puts
before a message, host-qualified patterns (the programs register none), and
the percent-escaping of a redirect target, which is a parameter `render` of
the dispatch.
-/

namespace TradingSystem

/-! ## Requests and responses -/

/-- The request target of the request line with what `url.ParseRequestURI`
makes of it: the target `*`, whose `URL.Path` is `*`, or any other target
together with the `URL.Path` and `URL.RawQuery` it parses to. -/
inductive Target
  | asterisk
  | uri (path rawQuery : String)
deriving DecidableEq

def Target.path : Target → String
  | .asterisk => "*"
  | .uri path _ => path

def Target.rawQuery : Target → String
  | .asterisk => ""
  | .uri _ rawQuery => rawQuery

/-- A parsed request as the handler layer of `net/http` sees it. -/
structure Request where
  method : String
  target : Target
  host : String
  header : List (String × String)
  body : String
deriving DecidableEq

/-- The field `URL.Path` of the request. -/
def Request.path (r : Request) : String := r.target.path

/-- The field `URL.RawQuery` of the request. -/
def Request.rawQuery (r : Request) : String := r.target.rawQuery

/-- The test `r.RequestURI == "*"`. -/
def Request.isAsterisk (r : Request) : Bool := r.target == Target.asterisk

/-- What the client receives: the status code and the body bytes. -/
structure Response where
  status : Nat
  body : String
deriving DecidableEq

/-- The state of `http.response` that the handlers touch. -/
structure ResponseWriter where
  isHead : Bool
  wroteHeader : Bool
  status : Nat
  body : String
deriving DecidableEq

/-- A handler function `func(w http.ResponseWriter, r *http.Request)`: its
only effect is on the writer it is given. -/
abbrev HandlerFunc := ResponseWriter → Request → ResponseWriter

def http.StatusOK : Nat := 200

def http.StatusMovedPermanently : Nat := 301

def http.StatusBadRequest : Nat := 400

def http.StatusNotFound : Nat := 404

/-- The reason phrases of the status codes used here. -/
def http.StatusText (code : Nat) : String :=
  if code = 200 then "OK"
  else if code = 301 then "Moved Permanently"
  else if code = 400 then "Bad Request"
  else if code = 404 then "Not Found"
  else ""

/-- Codes that forbid a body: 1xx, 204 and 304. -/
def http.bodyAllowedForStatus (status : Nat) : Bool :=
  if 100 ≤ status ∧ status ≤ 199 then false
  else if status = 204 then false
  else if status = 304 then false
  else true

/-- The writer a fresh request starts with. -/
def ResponseWriter.new (r : Request) : ResponseWriter :=
  { isHead := r.method == "HEAD", wroteHeader := false, status := 0, body := "" }

/-- The method `WriteHeader`: the first call fixes the status, a later call
is ignored. -/
def ResponseWriter.WriteHeader (w : ResponseWriter) (code : Nat) : ResponseWriter :=
  if w.wroteHeader then w
  else { w with wroteHeader := true, status := code }

/-- The method `Write`: an implicit `WriteHeader(200)` when no header was
written, nothing for a status that forbids a body or for a HEAD request,
otherwise the data is appended to the body. -/
def ResponseWriter.Write (w : ResponseWriter) (data : String) : ResponseWriter :=
  let w1 := if w.wroteHeader then w else w.WriteHeader http.StatusOK
  if data == "" then w1
  else if !http.bodyAllowedForStatus w1.status then w1
  else if w1.isHead then w1
  else { w1 with body := w1.body ++ data }

/-- What the server sends when the handler has returned: a handler that wrote
no header gets status 200. -/
def ResponseWriter.finish (w : ResponseWriter) : Response :=
  { status := if w.wroteHeader then w.status else http.StatusOK, body := w.body }

/-! ## Package fmt -/

/-- Worker of `fmt.Sprintf` on the characters of the format: the verb `%s`
takes the next operand verbatim, `%%` is a percent sign. -/
def fmt.sprintfChars : List Char → List String → List Char
  | [], _ => []
  | '%' :: 's' :: rest, a :: as => a.data ++ fmt.sprintfChars rest as
  | '%' :: 's' :: rest, [] => "%!s(MISSING)".data ++ fmt.sprintfChars rest []
  | '%' :: '%' :: rest, as => '%' :: fmt.sprintfChars rest as
  | c :: rest, as => c :: fmt.sprintfChars rest as

/-- The function `fmt.Sprintf` for string operands under the verb `%s`. -/
def fmt.Sprintf (format : String) (args : List String) : String :=
  String.mk (fmt.sprintfChars format.data args)

/-- The call `fmt.Fprint(w, s)` for one string operand: the string is
written as it is. -/
def fmt.Fprint (w : ResponseWriter) (s : String) : ResponseWriter :=
  w.Write s

/-- The call `fmt.Fprintln(w, s)` for one string operand. -/
def fmt.Fprintln (w : ResponseWriter) (s : String) : ResponseWriter :=
  w.Write (s ++ "\n")

/-! ## Package strings and path -/

/-- Worker of `strings.HasPrefix`. -/
def strings.startsWith : List Char → List Char → Bool
  | _, [] => true
  | [], _ :: _ => false
  | c :: cs, d :: ds => c == d && strings.startsWith cs ds

def strings.HasPrefix (s pre : String) : Bool :=
  strings.startsWith s.data pre.data

/-- True when the last byte of the string is a slash. -/
def strings.endsInSlash (s : String) : Bool :=
  s.data.getLast? == some '/'

/-- The elements of a path between its slashes, in order. -/
def path.elements : List Char → List (List Char)
  | [] => [[]]
  | c :: cs =>
    if c = '/' then [] :: path.elements cs
    else
      match path.elements cs with
      | [] => [[c]]
      | e :: es => (c :: e) :: es

/-- One step of `path.Clean` on the cleaned elements so far (innermost
first): empty and `.` elements vanish, `..` removes the element before it,
is dropped at the root, and is kept at the start of a relative path. -/
def path.cleanStep (rooted : Bool) (acc : List (List Char)) (e : List Char) :
    List (List Char) :=
  if e = [] ∨ e = ['.'] then acc
  else if e = ['.', '.'] then
    match acc with
    | [] => if rooted then [] else [e]
    | top :: below => if top = ['.', '.'] then e :: acc else below
  else e :: acc

/-- The elements joined by slashes. -/
def path.join : List (List Char) → List Char
  | [] => []
  | [e] => e
  | e :: es => e ++ '/' :: path.join es

/-- The function `path.Clean`: the shortest path name equivalent to `p` by
purely lexical processing. -/
def path.Clean (p : String) : String :=
  let rooted := strings.HasPrefix p "/"
  let kept := ((path.elements p.data).foldl (path.cleanStep rooted) []).reverse
  let out := (if rooted then ['/'] else []) ++ path.join kept
  if out = [] then "." else String.mk out

/-- The function `cleanPath` of `net/http`: the canonical path for `p`, with
the trailing slash that `path.Clean` removes put back. -/
def http.cleanPath (p : String) : String :=
  if p == "" then "/"
  else
    let p1 := if strings.HasPrefix p "/" then p else "/" ++ p
    let np := path.Clean p1
    if strings.endsInSlash p1 && np != "/" then np ++ "/" else np

/-- The function `htmlEscape` of `net/http`. -/
def http.htmlEscape (s : String) : String :=
  String.mk (s.data.flatMap fun c =>
    if c = '&' then "&amp;".data
    else if c = '<' then "&lt;".data
    else if c = '>' then "&gt;".data
    else if c = Char.ofNat 34 then "&#34;".data
    else if c = Char.ofNat 39 then "&#39;".data
    else [c])

/-! ## Stock handlers of net/http -/

/-- The function `http.Error`: the status, then the message and a newline. -/
def http.Error (w : ResponseWriter) (error : String) (code : Nat) : ResponseWriter :=
  fmt.Fprintln (w.WriteHeader code) error

/-- The handler `http.NotFound`. -/
def http.NotFound : HandlerFunc := fun w _ =>
  http.Error w "404 page not found" http.StatusNotFound

/-- The function `http.Redirect` to an already rendered target: the status,
and for a GET request a short hypertext note. -/
def http.Redirect (target : String) (code : Nat) : HandlerFunc := fun w r =>
  let w1 := w.WriteHeader code
  if r.method == "GET" then
    fmt.Fprintln w1
      ("<a href=" ++ String.singleton (Char.ofNat 34) ++ http.htmlEscape target
        ++ String.singleton (Char.ofNat 34) ++ ">" ++ http.StatusText code ++ "</a>.\n")
  else w1

/-- The handler the server itself uses for `OPTIONS *`: it only sets a
header, so the response is an empty 200. -/
def http.globalOptionsHandler : HandlerFunc := fun w _ => w

/-! ## The request multiplexer -/

/-- The type `http.ServeMux`: the registered patterns with their handlers,
and those ending in a slash ordered from longest to shortest. -/
structure ServeMux where
  m : List (String × HandlerFunc)
  es : List (String × HandlerFunc)

/-- The multiplexer `http.DefaultServeMux` at process start. -/
def ServeMux.empty : ServeMux := { m := [], es := [] }

/-- Map lookup `mux.m[pattern]`. -/
def ServeMux.lookup (mux : ServeMux) (pattern : String) : Option HandlerFunc :=
  (mux.m.find? fun e => e.1 == pattern).map fun e => e.2

/-- The function `appendSorted`: the entry goes before the first one with a
strictly shorter pattern. -/
def ServeMux.appendSorted : List (String × HandlerFunc) → String × HandlerFunc →
    List (String × HandlerFunc)
  | [], e => [e]
  | x :: xs, e =>
    if x.1.utf8ByteSize < e.1.utf8ByteSize then e :: x :: xs
    else x :: ServeMux.appendSorted xs e

/-- The method `match`: an exact match first, then the longest registered
pattern ending in a slash that the path starts with. -/
def ServeMux.matchPath (mux : ServeMux) (path : String) : Option HandlerFunc :=
  match mux.lookup path with
  | some h => some h
  | none => (mux.es.find? fun e => strings.HasPrefix path e.1).map fun e => e.2

/-- The method `handler`: the matching handler, or `http.NotFound`. -/
def ServeMux.handler (mux : ServeMux) (path : String) : HandlerFunc :=
  (mux.matchPath path).getD http.NotFound

/-- The method `shouldRedirectRLocked`: the path itself is not registered
but the path followed by a slash is. -/
def ServeMux.shouldRedirectRLocked (mux : ServeMux) (path : String) : Bool :=
  if (mux.lookup path).isSome then false
  else if path == "" then false
  else if (mux.lookup (path ++ "/")).isSome then !strings.endsInSlash path
  else false

/-- The method `Handler`: the handler for the request.  A CONNECT request is
looked up as it is; any other request has its path cleaned and is redirected
to the cleaned path when that differs. -/
def ServeMux.Handler (render : String → String → String) (mux : ServeMux)
    (r : Request) : HandlerFunc :=
  if r.method == "CONNECT" then
    if mux.shouldRedirectRLocked r.path then
      http.Redirect (render (r.path ++ "/") r.rawQuery) http.StatusMovedPermanently
    else mux.handler r.path
  else
    let path := http.cleanPath r.path
    if mux.shouldRedirectRLocked path then
      http.Redirect (render (path ++ "/") r.rawQuery) http.StatusMovedPermanently
    else if path != r.path then
      http.Redirect (render path r.rawQuery) http.StatusMovedPermanently
    else mux.handler r.path

/-- The method `ServeHTTP` of the multiplexer. -/
def ServeMux.ServeHTTP (render : String → String → String) (mux : ServeMux) : HandlerFunc :=
  fun w r =>
    if r.isAsterisk then w.WriteHeader http.StatusBadRequest
    else ServeMux.Handler render mux r w r

/-- The method `serverHandler.ServeHTTP` for a server without a handler of
its own: `OPTIONS *` is answered by the server, everything else goes to the
default multiplexer. -/
def http.serverHandler (render : String → String → String) (mux : ServeMux) : HandlerFunc :=
  fun w r =>
    if r.isAsterisk && r.method == "OPTIONS" then http.globalOptionsHandler w r
    else ServeMux.ServeHTTP render mux w r

/-- The response to one request: a fresh writer, the server handler, and the
implicit header at the end. -/
def http.respond (render : String → String → String) (mux : ServeMux) (r : Request) :
    Response :=
  (http.serverHandler render mux (ResponseWriter.new r) r).finish

/-- The responses to the requests a listener serves, in order.  The
multiplexer is passed from one request to the next; no handler can change
it. -/
def http.serve (render : String → String → String) (mux : ServeMux) :
    List Request → List Response
  | [] => []
  | r :: rs => http.respond render mux r :: http.serve render mux rs

/-- A rendering of a redirect target for a path and a query that need no
percent-escaping. -/
def plainTarget (path rawQuery : String) : String :=
  if rawQuery == "" then path else path ++ "?" ++ rawQuery

/-! ## The process: state, world and the monad of Go statements -/

/-- The effects of a process that an observer sees, in program order.  A log
message is recorded without the time stamp the logger puts before it. -/
inductive Event
  | handle (pattern : String)
  | log (msg : String)
  | listen (addr : String)
  | exit (code : Nat)
deriving DecidableEq

/-- What the operating system supplies: the environment (`none` for
a variable that is not set), and for an address what `http.ListenAndServe`
gives back (`none` when the listener is acquired and the accept loop never
returns, `some err` when the call returns the error `err`). -/
structure World where
  environ : String → Option String
  listenAndServe : String → Option String

/-- The process state: the default multiplexer, the listener started (its
address and the multiplexer it serves from), and the trace of effects. -/
structure Proc where
  mux : ServeMux
  listener : Option (String × ServeMux)
  trace : List Event

/-- The state a process starts in. -/
def Proc.start : Proc := { mux := ServeMux.empty, listener := none, trace := [] }

/-- How a sequence of statements ends: it completes with a value, the process
exits, a panic unwinds it, or it blocks for ever serving requests. -/
inductive Result (α : Type)
  | ok (a : α) (s : Proc)
  | exited (code : Nat) (s : Proc)
  | panicked (msg : String) (s : Proc)
  | serving (s : Proc)

/-- A Go statement sequence producing a value of type `α`. -/
def Go (α : Type) : Type := Proc → Result α

/-- Sequencing: the second statement runs only when the first completes. -/
def Go.andThen {α β : Type} (m : Go α) (f : α → Go β) : Go β := fun s =>
  match m s with
  | .ok a s1 => f a s1
  | .exited code s1 => .exited code s1
  | .panicked msg s1 => .panicked msg s1
  | .serving s1 => .serving s1

instance : Monad Go where
  pure a := fun s => .ok a s
  bind := Go.andThen

/-- The final process state of a result. -/
def Result.state {α : Type} : Result α → Proc
  | .ok _ s => s
  | .exited _ s => s
  | .panicked _ s => s
  | .serving s => s

/-- The exit status of the process when `main` ends this way: 0 when `main`
returns, the code given to `os.Exit`, 2 after a panic, none while the
process keeps serving. -/
def Result.exitStatus : Result Unit → Option Nat
  | .ok _ _ => some 0
  | .exited code _ => some code
  | .panicked _ _ => some 2
  | .serving _ => none

/-- The function `os.Getenv`: the value of the variable, empty when it is
not set. -/
def os.Getenv (world : World) (key : String) : String :=
  (world.environ key).getD ""

/-- The function `os.Exit`. -/
def os.Exit (code : Nat) : Go Unit := fun s =>
  .exited code { s with trace := s.trace ++ [Event.exit code] }

/-- The logger output of one message. -/
def log.Output (msg : String) : Go Unit := fun s =>
  .ok () { s with trace := s.trace ++ [Event.log msg] }

/-- The function `log.Printf`. -/
def log.Printf (format : String) (args : List String) : Go Unit :=
  log.Output (fmt.Sprintf format args)

/-- The function `log.Fatal` on an error value: the error text is logged,
then `os.Exit(1)`. -/
def log.Fatal (err : String) : Go Unit := do
  log.Output err
  os.Exit 1

/-- The function `http.HandleFunc`: registration on the default multiplexer.
An empty pattern and a pattern registered before panic. -/
def http.HandleFunc (pattern : String) (handler : HandlerFunc) : Go Unit := fun s =>
  if pattern == "" then .panicked "http: invalid pattern" s
  else if (s.mux.lookup pattern).isSome then
    .panicked ("http: multiple registrations for " ++ pattern) s
  else
    let mux1 : ServeMux :=
      { m := s.mux.m ++ [(pattern, handler)],
        es := if strings.endsInSlash pattern
          then ServeMux.appendSorted s.mux.es (pattern, handler) else s.mux.es }
    .ok () { s with mux := mux1, trace := s.trace ++ [Event.handle pattern] }

/-- The function `http.ListenAndServe` with a nil handler: the server listens
on the address (`:http` for an empty one) and serves from the default
multiplexer.  It blocks for ever, or returns the error the world gives. -/
def http.ListenAndServe (world : World) (addr : String) : Go String := fun s =>
  let addr1 := if addr == "" then ":http" else addr
  let s1 : Proc :=
    { s with listener := some (addr1, s.mux), trace := s.trace ++ [Event.listen addr1] }
  match world.listenAndServe addr1 with
  | none => .serving s1
  | some err => .ok err s1

/-! ## The two programs -/

/-- The function `main` of `cmd/market-pipeline/main.go`. -/
def marketPipeline.main (world : World) : Go Unit := do
  let port := os.Getenv world "PORT"
  let port := if port == "" then "8080" else port
  http.HandleFunc "/health" (fun w _ =>
    let w := w.WriteHeader http.StatusOK
    fmt.Fprint w "Pipeline service healthy")
  log.Printf "Pipeline service starting on port %s" [port]
  log.Fatal (← http.ListenAndServe world (":" ++ port))

/-- The function `main` of `cmd/strategy-engine/main.go`. -/
def strategyEngine.main (world : World) : Go Unit := do
  let port := os.Getenv world "PORT"
  let port := if port == "" then "8081" else port
  http.HandleFunc "/health" (fun w _ =>
    let w := w.WriteHeader http.StatusOK
    fmt.Fprint w "Strategy service healthy")
  log.Printf "Strategy service starting on port %s" [port]
  log.Fatal (← http.ListenAndServe world (":" ++ port))

/-- The two deployable programs. -/
inductive Instance
  | marketPipeline
  | strategyEngine
deriving DecidableEq

/-- The run of a program from process start in a world. -/
def Instance.run : Instance → World → Result Unit
  | .marketPipeline, world => marketPipeline.main world Proc.start
  | .strategyEngine, world => strategyEngine.main world Proc.start

/-- The world in which `PORT` has the given value (`none`: not set) and
`http.ListenAndServe` gives back `outcome` for every address. -/
def World.ofPort (port : Option String) (outcome : Option String) : World :=
  { environ := fun key => if key == "PORT" then port else none,
    listenAndServe := fun _ => outcome }

/-! ## Vocabulary of the specification -/

/-- The fixed default port of an instance. -/
def Instance.defaultPort : Instance → String
  | .marketPipeline => "8080"
  | .strategyEngine => "8081"

/-- The fixed health body of an instance. -/
def Instance.healthBody : Instance → String
  | .marketPipeline => "Pipeline service healthy"
  | .strategyEngine => "Strategy service healthy"

/-- The text of the start-up line of an instance in front of the port. -/
def Instance.startText : Instance → String
  | .marketPipeline => "Pipeline service starting on port "
  | .strategyEngine => "Strategy service starting on port "

/-- The port the specification has an instance choose: the override when it
is present and not empty, otherwise the default. -/
def Instance.chosenPort (i : Instance) (world : World) : String :=
  match world.environ "PORT" with
  | none => i.defaultPort
  | some p => if p = "" then i.defaultPort else p

/-- The value of the digits of a decimal numeral. -/
def decimalValue (cs : List Char) : Nat :=
  cs.foldl (fun n c => 10 * n + (c.toNat - 48)) 0

/-- The string is the decimal representation of an integer from 1 to 65535. -/
def isPortNumber (s : String) : Bool :=
  s.data.all Char.isDigit && s.data.head? != some '0'
    && decide (1 ≤ decimalValue s.data) && decide (decimalValue s.data ≤ 65535)

/-- The addresses a trace listens on, in order. -/
def listenAddrs : List Event → List String
  | [] => []
  | .listen addr :: t => addr :: listenAddrs t
  | _ :: t => listenAddrs t

/-- The log messages of a trace, in order. -/
def logLines : List Event → List String
  | [] => []
  | .log msg :: t => msg :: logLines t
  | _ :: t => logLines t

/-- The patterns a trace registers, in order. -/
def handledPatterns : List Event → List String
  | [] => []
  | .handle pattern :: t => pattern :: handledPatterns t
  | _ :: t => handledPatterns t

/-- The one program of the specification, with the three texts in which the
two source programs differ as parameters: the default port, the health body
and the format of the start-up line. -/
def livenessMain (defaultPort healthBody startFormat : String) (world : World) :
    Go Unit := do
  let port := os.Getenv world "PORT"
  let port := if port == "" then defaultPort else port
  http.HandleFunc "/health" (fun w _ =>
    let w := w.WriteHeader http.StatusOK
    fmt.Fprint w healthBody)
  log.Printf startFormat [port]
  log.Fatal (← http.ListenAndServe world (":" ++ port))

/-- The handler an instance registers for the health route, as a function of
the body. -/
def healthHandler (body : String) : HandlerFunc := fun w _ =>
  fmt.Fprint (w.WriteHeader http.StatusOK) body

/-- The multiplexer of an instance once `main` has registered its route. -/
def healthMux (body : String) : ServeMux :=
  { m := [("/health", healthHandler body)], es := [] }

/-- The process state of an instance when it calls the listener. -/
def Instance.listening (i : Instance) (world : World) : Proc :=
  { mux := healthMux i.healthBody,
    listener := some (":" ++ i.chosenPort world, healthMux i.healthBody),
    trace := [Event.handle "/health", Event.log (i.startText ++ i.chosenPort world),
      Event.listen (":" ++ i.chosenPort world)] }

/-- The process state of an instance after `log.Fatal` on the error. -/
def Instance.failed (i : Instance) (world : World) (err : String) : Proc :=
  { i.listening world with
    trace := (i.listening world).trace ++ [Event.log err, Event.exit 1] }

/-- The multiplexer the listener of a run serves from (the empty one for a
run that starts no listener). -/
def Instance.served (i : Instance) (world : World) : ServeMux :=
  match (i.run world).state.listener with
  | some (_, mux) => mux
  | none => ServeMux.empty

/-- The world with `PORT` not set in which the listener is acquired. -/
def World.plain : World := World.ofPort none none

/-- A request with the given method and target and nothing else. -/
def Request.simple (method : String) (target : Target) : Request :=
  { method := method, target := target, host := "localhost", header := [], body := "" }

/-! ## Shared lemmas -/

theorem chosenPort_eq (i : Instance) (world : World) :
    i.chosenPort world
      = if os.Getenv world "PORT" = "" then i.defaultPort else os.Getenv world "PORT" := by
  unfold Instance.chosenPort os.Getenv
  cases h : world.environ "PORT" with
  | none => simp
  | some p => by_cases hp : p = "" <;> simp [hp]

theorem colon_append_ne_empty (p : String) : (":" ++ p == "") = false := by
  have h : ":" ++ p ≠ "" := by
    intro h
    have h2 := congrArg String.length h
    simp at h2
    exact absurd h2.1 (by decide)
  simpa using h

theorem sprintf_pipeline (p : String) :
    fmt.Sprintf "Pipeline service starting on port %s" [p]
      = "Pipeline service starting on port " ++ p := by
  apply String.ext
  simp [fmt.Sprintf, fmt.sprintfChars]

theorem sprintf_strategy (p : String) :
    fmt.Sprintf "Strategy service starting on port %s" [p]
      = "Strategy service starting on port " ++ p := by
  apply String.ext
  simp [fmt.Sprintf, fmt.sprintfChars]

/-- The run of an instance, computed: the route is registered, the start-up
line is logged, the listener is called on the colon and the chosen port, and
then the process serves for ever or exits with status 1. -/
theorem run_eq (i : Instance) (world : World) :
    i.run world =
      match world.listenAndServe (":" ++ i.chosenPort world) with
      | none => Result.serving (i.listening world)
      | some err => Result.exited 1 (i.failed world err) := by
  cases i
  · simp only [Instance.run, marketPipeline.main, bind, Go.andThen, http.HandleFunc,
      log.Printf, log.Output, log.Fatal, http.ListenAndServe, os.Exit, Proc.start,
      ServeMux.empty, ServeMux.lookup, sprintf_pipeline, colon_append_ne_empty,
      chosenPort_eq, Instance.listening, Instance.failed, Instance.defaultPort,
      Instance.healthBody, Instance.startText, healthMux, healthHandler]
    cases hl : world.listenAndServe
        (":" ++ if os.Getenv world "PORT" = "" then "8080" else os.Getenv world "PORT") <;>
      simp [hl, strings.endsInSlash] <;> rfl
  · simp only [Instance.run, strategyEngine.main, bind, Go.andThen, http.HandleFunc,
      log.Printf, log.Output, log.Fatal, http.ListenAndServe, os.Exit, Proc.start,
      ServeMux.empty, ServeMux.lookup, sprintf_strategy, colon_append_ne_empty,
      chosenPort_eq, Instance.listening, Instance.failed, Instance.defaultPort,
      Instance.healthBody, Instance.startText, healthMux, healthHandler]
    cases hl : world.listenAndServe
        (":" ++ if os.Getenv world "PORT" = "" then "8081" else os.Getenv world "PORT") <;>
      simp [hl, strings.endsInSlash] <;> rfl

/-! ### Dispatch on the multiplexer of an instance -/

theorem append_slash_ne_health (p : String) : p ++ "/" ≠ "/health" := by
  intro h
  have h2 := congrArg (fun t : String => t.data.getLast?) h
  simp at h2

theorem lookup_healthMux (body p : String) :
    (healthMux body).lookup p
      = if p = "/health" then some (healthHandler body) else none := by
  by_cases hp : p = "/health"
  · subst hp
    simp [ServeMux.lookup, healthMux]
  · have hne : ¬ "/health" = p := fun h => hp h.symm
    simp [ServeMux.lookup, healthMux, hp, hne]

theorem shouldRedirect_healthMux (body p : String) :
    (healthMux body).shouldRedirectRLocked p = false := by
  simp [ServeMux.shouldRedirectRLocked, lookup_healthMux, append_slash_ne_health]

theorem handler_healthMux (body p : String) :
    (healthMux body).handler p
      = if p = "/health" then healthHandler body else http.NotFound := by
  have hes : (healthMux body).es = [] := rfl
  by_cases hp : p = "/health" <;>
    simp [ServeMux.handler, ServeMux.matchPath, lookup_healthMux, hp, hes]

theorem cleanPath_health : http.cleanPath "/health" = "/health" := by decide

theorem target_of_path_health (r : Request) (h : r.path = "/health") :
    r.isAsterisk = false := by
  cases r with
  | mk method target host header body =>
    cases target with
    | asterisk =>
      have h2 : ("*" : String) = "/health" := h
      exact absurd h2 (by decide)
    | uri p q => simp [Request.isAsterisk]

/-- The health handler on a fresh writer: status 200 and the body, which a
HEAD request does not receive. -/
theorem healthHandler_fresh (body : String) (r : Request) :
    (healthHandler body (ResponseWriter.new r) r).finish
      = { status := 200, body := if r.method = "HEAD" then "" else body } := by
  by_cases hb : body = "" <;> by_cases hm : r.method = "HEAD" <;>
    simp [healthHandler, fmt.Fprint, ResponseWriter.Write, ResponseWriter.WriteHeader,
      ResponseWriter.new, ResponseWriter.finish, http.StatusOK, http.bodyAllowedForStatus,
      hb, hm]

/-- The not-found handler on a fresh writer. -/
theorem notFound_fresh (r : Request) :
    ((http.NotFound (ResponseWriter.new r) r).finish).status = 404
      ∧ ((http.NotFound (ResponseWriter.new r) r).finish).body
          = if r.method = "HEAD" then "" else "404 page not found\n" := by
  by_cases hm : r.method = "HEAD" <;>
    simp [http.NotFound, http.Error, fmt.Fprintln, ResponseWriter.Write,
      ResponseWriter.WriteHeader, ResponseWriter.new, ResponseWriter.finish,
      http.StatusNotFound, http.bodyAllowedForStatus, hm]

/-- A request for the path of the health route reaches the health handler,
whatever its method. -/
theorem respond_health (render : String → String → String) (body : String) (r : Request)
    (h : r.path = "/health") :
    http.respond render (healthMux body) r
      = { status := 200, body := if r.method = "HEAD" then "" else body } := by
  have ha := target_of_path_health r h
  rw [← healthHandler_fresh body r]
  by_cases hc : r.method = "CONNECT" <;>
    simp [http.respond, http.serverHandler, ServeMux.ServeHTTP, ServeMux.Handler, ha, hc,
      shouldRedirect_healthMux, handler_healthMux, h, cleanPath_health]

/-- A write that follows the header on a fresh writer: the response has the
status of the header and the data as its body, which a HEAD request does not
receive. -/
theorem write_after_header (r : Request) (code : Nat) (data : String)
    (hcode : http.bodyAllowedForStatus code = true) :
    (((ResponseWriter.new r).WriteHeader code).Write data).finish
      = { status := code, body := if r.method = "HEAD" then "" else data } := by
  by_cases hd : data = "" <;> by_cases hm : r.method = "HEAD" <;>
    simp [ResponseWriter.Write, ResponseWriter.WriteHeader, ResponseWriter.new,
      ResponseWriter.finish, hcode, hd, hm]

/-- A redirect on a fresh writer: the status, and a body that is empty or
starts with an angle bracket. -/
theorem redirect_fresh (target : String) (r : Request) :
    ((http.Redirect target 301 (ResponseWriter.new r) r).finish).status = 301
      ∧ ((http.Redirect target 301 (ResponseWriter.new r) r).finish).body.data.head?
          = if r.method = "GET" then some '<' else none := by
  by_cases hm : r.method = "GET"
  · have hh : ¬ r.method = "HEAD" := by rw [hm]; decide
    simp only [http.Redirect, fmt.Fprintln, hm, beq_self_eq_true, if_true]
    rw [write_after_header r 301 _ (by decide)]
    simp [hh, hm, List.head?_append]
  · simp [http.Redirect, ResponseWriter.WriteHeader, ResponseWriter.new,
      ResponseWriter.finish, hm]

/-- The first byte of a not-found body. -/
theorem notFound_head (r : Request) :
    ((http.NotFound (ResponseWriter.new r) r).finish).body.data.head?
      = if r.method = "HEAD" then none else some '4' := by
  rw [(notFound_fresh r).2]
  by_cases hm : r.method = "HEAD" <;> simp [hm]

/-- A request for any other path never reaches the health handler: it is
answered by the server (`OPTIONS *`), refused (another method on `*`),
redirected to its cleaned path, or not found. -/
theorem respond_other (render : String → String → String) (body : String) (r : Request)
    (h : r.path ≠ "/health") :
    ((http.respond render (healthMux body) r).status = 200
        → r.target = Target.asterisk ∧ r.method = "OPTIONS")
      ∧ ((http.respond render (healthMux body) r).body.data.head? = none
        ∨ (http.respond render (healthMux body) r).body.data.head? = some '4'
        ∨ (http.respond render (healthMux body) r).body.data.head? = some '<') := by
  have hnf := notFound_fresh r
  have hnh := notFound_head r
  by_cases ha : r.target = Target.asterisk
  · by_cases ho : r.method = "OPTIONS"
    · simp [http.respond, http.serverHandler, Request.isAsterisk, ha, ho,
        http.globalOptionsHandler, ResponseWriter.new, ResponseWriter.finish]
    · simp [http.respond, http.serverHandler, ServeMux.ServeHTTP, Request.isAsterisk, ha, ho,
        ResponseWriter.new, ResponseWriter.finish, ResponseWriter.WriteHeader,
        http.StatusBadRequest]
  · by_cases hc : r.method = "CONNECT"
    · have hr : http.respond render (healthMux body) r
          = (http.NotFound (ResponseWriter.new r) r).finish := by
        simp [http.respond, http.serverHandler, ServeMux.ServeHTTP, ServeMux.Handler,
          Request.isAsterisk, ha, hc, shouldRedirect_healthMux, handler_healthMux, h]
      rw [hr, hnf.1, hnh]
      by_cases hm : r.method = "HEAD" <;> simp [hm]
    · by_cases hcl : http.cleanPath r.path = r.path
      · have hr : http.respond render (healthMux body) r
            = (http.NotFound (ResponseWriter.new r) r).finish := by
          simp [http.respond, http.serverHandler, ServeMux.ServeHTTP, ServeMux.Handler,
            Request.isAsterisk, ha, hc, hcl, shouldRedirect_healthMux, handler_healthMux, h]
        rw [hr, hnf.1, hnh]
        by_cases hm : r.method = "HEAD" <;> simp [hm]
      · have hr : http.respond render (healthMux body) r
            = (http.Redirect (render (http.cleanPath r.path) r.rawQuery) 301
                (ResponseWriter.new r) r).finish := by
          simp [http.respond, http.serverHandler, ServeMux.ServeHTTP, ServeMux.Handler,
            Request.isAsterisk, ha, hc, hcl, shouldRedirect_healthMux,
            http.StatusMovedPermanently]
        have hrd := redirect_fresh (render (http.cleanPath r.path) r.rawQuery) r
        rw [hr, hrd.1, hrd.2]
        by_cases hm : r.method = "GET" <;> simp [hm]

/-- The requests are answered one by one from the same multiplexer. -/
theorem serve_getElem? (render : String → String → String) (mux : ServeMux)
    (reqs : List Request) (n : Nat) :
    (http.serve render mux reqs)[n]? = (reqs[n]?).map (http.respond render mux) := by
  induction reqs generalizing n with
  | nil => simp [http.serve]
  | cons r rs ih =>
    cases n with
    | zero => simp [http.serve]
    | succ k => simpa [http.serve] using ih k

/-! ### Observations of a run -/

theorem chosenPort_default (i : Instance) (world : World)
    (h : world.environ "PORT" = none ∨ world.environ "PORT" = some "") :
    i.chosenPort world = i.defaultPort := by
  rcases h with h | h <;> simp [Instance.chosenPort, h]

theorem chosenPort_override (i : Instance) (world : World) (P : String)
    (h : world.environ "PORT" = some P) (hne : P ≠ "") :
    i.chosenPort world = P := by
  simp [Instance.chosenPort, h, hne]

theorem trace_eq (i : Instance) (world : World) :
    (i.run world).state.trace
      = [Event.handle "/health", Event.log (i.startText ++ i.chosenPort world),
          Event.listen (":" ++ i.chosenPort world)]
        ++ (match world.listenAndServe (":" ++ i.chosenPort world) with
            | none => []
            | some err => [Event.log err, Event.exit 1]) := by
  rw [run_eq]
  cases world.listenAndServe (":" ++ i.chosenPort world) <;>
    simp [Result.state, Instance.failed, Instance.listening]

theorem listenAddrs_run (i : Instance) (world : World) :
    listenAddrs (i.run world).state.trace = [":" ++ i.chosenPort world] := by
  rw [trace_eq]
  cases world.listenAndServe (":" ++ i.chosenPort world) <;> simp [listenAddrs]

theorem exitStatus_run (i : Instance) (world : World) :
    (i.run world).exitStatus
      = (world.listenAndServe (":" ++ i.chosenPort world)).map fun _ => 1 := by
  rw [run_eq]
  cases world.listenAndServe (":" ++ i.chosenPort world) <;> simp [Result.exitStatus]

theorem listener_run (i : Instance) (world : World) :
    (i.run world).state.listener
      = some (":" ++ i.chosenPort world, healthMux i.healthBody) := by
  rw [run_eq]
  cases world.listenAndServe (":" ++ i.chosenPort world) <;>
    simp [Result.state, Instance.failed, Instance.listening]

theorem served_eq (i : Instance) (world : World) :
    i.served world = healthMux i.healthBody := by
  simp [Instance.served, listener_run]

theorem colon_append_inj (p q : String) (h : ":" ++ p = ":" ++ q) : p = q := by
  apply String.ext
  have h2 := congrArg String.data h
  simpa using h2

theorem healthBody_head (i : Instance) :
    i.healthBody.data.head? = some 'P' ∨ i.healthBody.data.head? = some 'S' := by
  cases i <;> decide

/-! ### Requests for other paths -/

/-- The not-found handler on a fresh writer, as one response. -/
theorem notFound_response (r : Request) :
    (http.NotFound (ResponseWriter.new r) r).finish
      = { status := 404, body := if r.method = "HEAD" then "" else "404 page not found\n" } := by
  have h := write_after_header r 404 ("404 page not found" ++ "\n") (by decide)
  simpa [http.NotFound, http.Error, fmt.Fprintln, http.StatusNotFound] using h

/-- A request for another path gets from the multiplexer of an instance what
it gets from a multiplexer without any route. -/
theorem respond_other_eq_empty (render : String → String → String) (body : String)
    (r : Request) (h : r.path ≠ "/health") :
    http.respond render (healthMux body) r = http.respond render ServeMux.empty r := by
  have he : ∀ p : String, ServeMux.empty.shouldRedirectRLocked p = false := by
    intro p
    simp [ServeMux.shouldRedirectRLocked, ServeMux.lookup, ServeMux.empty]
  have hh : ∀ p : String, ServeMux.empty.handler p = http.NotFound := by
    intro p
    simp [ServeMux.handler, ServeMux.matchPath, ServeMux.lookup, ServeMux.empty]
  by_cases hc : r.method = "CONNECT" <;>
    simp [http.respond, http.serverHandler, ServeMux.ServeHTTP, ServeMux.Handler, hc,
      shouldRedirect_healthMux, handler_healthMux, h, he, hh]

/-- A request for another path that is not `*` and needs no cleaning is not
found. -/
theorem respond_notFound (render : String → String → String) (body : String)
    (r : Request) (h : r.path ≠ "/health") (ha : r.target ≠ Target.asterisk)
    (hc : r.method = "CONNECT" ∨ http.cleanPath r.path = r.path) :
    http.respond render (healthMux body) r
      = { status := 404, body := if r.method = "HEAD" then "" else "404 page not found\n" } := by
  rw [← notFound_response r]
  by_cases hm : r.method = "CONNECT"
  · simp [http.respond, http.serverHandler, ServeMux.ServeHTTP, ServeMux.Handler,
      Request.isAsterisk, ha, hm, shouldRedirect_healthMux, handler_healthMux, h]
  · have hcl : http.cleanPath r.path = r.path := hc.resolve_left hm
    simp [http.respond, http.serverHandler, ServeMux.ServeHTTP, ServeMux.Handler,
      Request.isAsterisk, ha, hm, hcl, shouldRedirect_healthMux, handler_healthMux, h]

/-! ## The claims -/

/-- C1: for every instance, world and sequence of requests served by the
listener of the run, every GET request whose path is exactly `/health`
receives status 200 and exactly the health body of the instance, whatever
its query, host, headers and body and whatever was served before it; the
same request repeated any number of times gets the same response each
time. -/
theorem health_get_always_ok (i : Instance) (world : World) :
    ((i.run world).state.listener).isSome = true
      ∧ (∀ (render : String → String → String) (reqs : List Request) (n : Nat)
          (r : Request), reqs[n]? = some r → r.method = "GET" → r.path = "/health" →
          (http.serve render (i.served world) reqs)[n]?
            = some { status := 200, body := i.healthBody })
      ∧ (∀ (render : String → String → String) (r : Request) (k : Nat),
          r.method = "GET" → r.path = "/health" →
          http.serve render (i.served world) (List.replicate k r)
            = List.replicate k { status := 200, body := i.healthBody }) := by
  have key : ∀ (render : String → String → String) (r : Request),
      r.method = "GET" → r.path = "/health" →
      http.respond render (i.served world) r = { status := 200, body := i.healthBody } := by
    intro render r hm hp
    rw [served_eq, respond_health render _ r hp, hm]
    simp
  refine ⟨by simp [listener_run], ?_, ?_⟩
  · intro render reqs n r hn hm hp
    rw [serve_getElem?, hn]
    simp [key render r hm hp]
  · intro render r k hm hp
    induction k with
    | zero => simp [http.serve]
    | succ k ih => simp [List.replicate_succ, http.serve, ih, key render r hm hp]

/-- Witness of C1: in the plain world the pipeline answers the first and the
third of three requests, both `GET /health?x=1`, with 200 and its body. -/
theorem health_get_always_ok_witness :
    (http.serve plainTarget (Instance.marketPipeline.served World.plain)
        [Request.simple "GET" (Target.uri "/health" "x=1"),
         Request.simple "POST" (Target.uri "/other" ""),
         Request.simple "GET" (Target.uri "/health" "x=1")])[2]?
      = some { status := 200, body := "Pipeline service healthy" } :=
  (health_get_always_ok Instance.marketPipeline World.plain).2.1 plainTarget
    [Request.simple "GET" (Target.uri "/health" "x=1"),
     Request.simple "POST" (Target.uri "/other" ""),
     Request.simple "GET" (Target.uri "/health" "x=1")] 2
    (Request.simple "GET" (Target.uri "/health" "x=1")) rfl rfl rfl

/-- C2: when `PORT` is unset or empty, market-pipeline announces and listens
on its default port 8080 and strategy-engine on its default port 8081; the
two cases select the same port. -/
theorem default_port_when_unset_or_empty (world : World)
    (h : world.environ "PORT" = none ∨ world.environ "PORT" = some "") :
    ((Instance.marketPipeline.run world).state.trace.take 3
        = [Event.handle "/health", Event.log "Pipeline service starting on port 8080",
            Event.listen ":8080"]
      ∧ listenAddrs (Instance.marketPipeline.run world).state.trace = [":8080"])
    ∧ ((Instance.strategyEngine.run world).state.trace.take 3
        = [Event.handle "/health", Event.log "Strategy service starting on port 8081",
            Event.listen ":8081"]
      ∧ listenAddrs (Instance.strategyEngine.run world).state.trace = [":8081"]) := by
  have hm := chosenPort_default Instance.marketPipeline world h
  have hs := chosenPort_default Instance.strategyEngine world h
  refine ⟨⟨?_, ?_⟩, ⟨?_, ?_⟩⟩
  · rw [trace_eq, hm]; rfl
  · rw [listenAddrs_run, hm]; rfl
  · rw [trace_eq, hs]; rfl
  · rw [listenAddrs_run, hs]; rfl

/-- Witness of C2: the world in which `PORT` is set to the empty string. -/
theorem default_port_when_unset_or_empty_witness :
    ((Instance.marketPipeline.run (World.ofPort (some "") none)).state.trace.take 3
        = [Event.handle "/health", Event.log "Pipeline service starting on port 8080",
            Event.listen ":8080"]
      ∧ listenAddrs (Instance.marketPipeline.run (World.ofPort (some "") none)).state.trace
          = [":8080"])
    ∧ ((Instance.strategyEngine.run (World.ofPort (some "") none)).state.trace.take 3
        = [Event.handle "/health", Event.log "Strategy service starting on port 8081",
            Event.listen ":8081"]
      ∧ listenAddrs (Instance.strategyEngine.run (World.ofPort (some "") none)).state.trace
          = [":8081"]) :=
  default_port_when_unset_or_empty (World.ofPort (some "") none) (Or.inr rfl)

/-- C3: when `PORT` is a non-empty string `P`, each instance announces and
listens on exactly `P`, character for character, and on its default port
only if `P` is that default. -/
theorem nonempty_override_verbatim (i : Instance) (world : World) (P : String)
    (h : world.environ "PORT" = some P) (hne : P ≠ "") :
    (i.run world).state.trace.take 3
        = [Event.handle "/health", Event.log (i.startText ++ P), Event.listen (":" ++ P)]
      ∧ listenAddrs (i.run world).state.trace = [":" ++ P]
      ∧ (listenAddrs (i.run world).state.trace = [":" ++ i.defaultPort]
          → P = i.defaultPort) := by
  have hc := chosenPort_override i world P h hne
  refine ⟨?_, ?_, ?_⟩
  · rw [trace_eq, hc]; rfl
  · rw [listenAddrs_run, hc]
  · rw [listenAddrs_run, hc]
    intro heq
    exact colon_append_inj _ _ (List.cons.inj heq).1

/-- Witness of C3: the override with a blank in front is kept as it is. -/
theorem nonempty_override_verbatim_witness :
    (Instance.strategyEngine.run (World.ofPort (some " 9090") none)).state.trace.take 3
        = [Event.handle "/health",
            Event.log (Instance.strategyEngine.startText ++ " 9090"),
            Event.listen (":" ++ " 9090")]
      ∧ listenAddrs (Instance.strategyEngine.run (World.ofPort (some " 9090") none)).state.trace
          = [":" ++ " 9090"]
      ∧ (listenAddrs (Instance.strategyEngine.run (World.ofPort (some " 9090") none)).state.trace
            = [":" ++ Instance.strategyEngine.defaultPort]
          → " 9090" = Instance.strategyEngine.defaultPort) :=
  nonempty_override_verbatim Instance.strategyEngine (World.ofPort (some " 9090") none)
    " 9090" rfl (by decide)

/-- C4: `main` never returns normally and the process never exits with
status 0.  The run calls the listener exactly once, on one address; when that
call returns an error, whatever it is, the error is logged and the process
exits with status 1 right after, without another listen call; when it does
not return, the process keeps serving and has no exit status. -/
theorem listen_failure_is_fatal (i : Instance) (world : World) :
    (∀ s : Proc, i.run world ≠ Result.ok () s)
      ∧ (i.run world).exitStatus ≠ some 0
      ∧ ∃ addr : String, listenAddrs (i.run world).state.trace = [addr]
          ∧ (∀ err : String, world.listenAndServe addr = some err →
              (i.run world).exitStatus = some 1
                ∧ (i.run world).state.trace.drop 2
                    = [Event.listen addr, Event.log err, Event.exit 1])
          ∧ (world.listenAndServe addr = none →
              (i.run world).exitStatus = none
                ∧ (i.run world).state.trace.drop 2 = [Event.listen addr]) := by
  refine ⟨?_, ?_, ":" ++ i.chosenPort world, listenAddrs_run i world, ?_, ?_⟩
  · intro s
    rw [run_eq]
    cases world.listenAndServe (":" ++ i.chosenPort world) <;> simp
  · rw [exitStatus_run]
    cases world.listenAndServe (":" ++ i.chosenPort world) <;> simp
  · intro err herr
    rw [exitStatus_run, trace_eq, herr]
    simp
  · intro hnone
    rw [exitStatus_run, trace_eq, hnone]
    simp

/-- Witness of C4: the pipeline on an occupied port logs the error and exits
with status 1. -/
theorem listen_failure_is_fatal_witness :
    (Instance.marketPipeline.run
        (World.ofPort none (some "listen tcp :8080: bind: address already in use"))).exitStatus
      = some 1 := by
  obtain ⟨addr, _, h, _⟩ := (listen_failure_is_fatal Instance.marketPipeline
    (World.ofPort none (some "listen tcp :8080: bind: address already in use"))).2.2
  exact (h "listen tcp :8080: bind: address already in use" rfl).1

/-- C5, as stated, fails: the request `OPTIONS *` has the path `*`, which is
not `/health`, and the server answers it with status 200. -/
theorem other_path_never_ok_counterexample :
    (Request.simple "OPTIONS" Target.asterisk).path ≠ "/health"
      ∧ http.respond plainTarget (Instance.marketPipeline.served World.plain)
          (Request.simple "OPTIONS" Target.asterisk)
        = { status := 200, body := "" } := by
  refine ⟨by decide, ?_⟩
  rw [served_eq]
  rfl

/-- C5, amended: for every instance and every request whose path is not
exactly `/health`, the body of the response is not the health body of
the instance, and the status is not 200 unless the request is `OPTIONS *`,
which the server answers itself. -/
theorem other_path_never_health (i : Instance) (world : World)
    (render : String → String → String) (r : Request) (h : r.path ≠ "/health") :
    (http.respond render (i.served world) r).body ≠ i.healthBody
      ∧ ((http.respond render (i.served world) r).status = 200
          → r.target = Target.asterisk ∧ r.method = "OPTIONS") := by
  rw [served_eq]
  obtain ⟨hs, hb⟩ := respond_other render i.healthBody r h
  refine ⟨?_, hs⟩
  intro heq
  rw [heq] at hb
  rcases healthBody_head i with hi | hi <;> rw [hi] at hb <;> simp at hb

/-- Witness of C5: a GET request for `//health`, which only cleans to the
health path, is redirected. -/
theorem other_path_never_health_witness :
    (http.respond plainTarget (Instance.strategyEngine.served World.plain)
        (Request.simple "GET" (Target.uri "//health" ""))).body
        ≠ Instance.strategyEngine.healthBody
      ∧ ((http.respond plainTarget (Instance.strategyEngine.served World.plain)
            (Request.simple "GET" (Target.uri "//health" ""))).status = 200
          → (Request.simple "GET" (Target.uri "//health" "")).target = Target.asterisk
            ∧ (Request.simple "GET" (Target.uri "//health" "")).method = "OPTIONS") :=
  other_path_never_health Instance.strategyEngine World.plain plainTarget
    (Request.simple "GET" (Target.uri "//health" "")) (by decide)

/-- C6, as stated, fails: a POST request to `/health` receives status 200 and
the health body. -/
theorem other_method_not_found_counterexample :
    (Request.simple "POST" (Target.uri "/health" "")).method ≠ "GET"
      ∧ http.respond plainTarget (Instance.marketPipeline.served World.plain)
          (Request.simple "POST" (Target.uri "/health" ""))
        = { status := 200, body := "Pipeline service healthy" } := by
  refine ⟨by decide, ?_⟩
  rw [served_eq]
  rfl

/-- C6, amended: the route is registered for the path alone.  A request to
`/health` receives status 200 whatever its method, with the health body
unless the method is HEAD; a request for another path, other than `*`, that
is a CONNECT request or whose path is already clean receives the not-found
response of the HTTP stack. -/
theorem health_route_ignores_method (i : Instance) (world : World)
    (render : String → String → String) (r : Request) :
    (r.path = "/health" →
        http.respond render (i.served world) r
          = { status := 200, body := if r.method = "HEAD" then "" else i.healthBody })
      ∧ (r.path ≠ "/health" → r.target ≠ Target.asterisk →
          (r.method = "CONNECT" ∨ http.cleanPath r.path = r.path) →
          http.respond render (i.served world) r
            = { status := 404,
                body := if r.method = "HEAD" then "" else "404 page not found\n" }) := by
  rw [served_eq]
  exact ⟨respond_health render _ r, respond_notFound render _ r⟩

/-- Witness of C6: a DELETE request to `/health` of the strategy engine. -/
theorem health_route_ignores_method_witness :
    http.respond plainTarget (Instance.strategyEngine.served World.plain)
        (Request.simple "DELETE" (Target.uri "/health" ""))
      = { status := 200, body := "Strategy service healthy" } :=
  (health_route_ignores_method Instance.strategyEngine World.plain plainTarget
    (Request.simple "DELETE" (Target.uri "/health" ""))).1 rfl

/-- C7, as stated, fails: with `PORT` set to `abc` the pipeline listens on the
port `abc`, which is not the decimal representation of an integer. -/
theorem port_in_range_counterexample :
    listenAddrs (Instance.marketPipeline.run (World.ofPort (some "abc") none)).state.trace
        = [":" ++ "abc"]
      ∧ isPortNumber "abc" = false := by
  refine ⟨?_, by decide⟩
  rw [listenAddrs_run, chosenPort_override _ _ "abc" rfl (by decide)]

/-- C7, amended: when `PORT` is unset or empty the port an instance listens
on is its default, the decimal representation of an integer from 1 to 65535;
when `PORT` is a non-empty string the port is that string as it is, whether
or not it is such a representation. -/
theorem port_default_in_range (i : Instance) (world : World) :
    ((world.environ "PORT" = none ∨ world.environ "PORT" = some "") →
        listenAddrs (i.run world).state.trace = [":" ++ i.defaultPort]
          ∧ isPortNumber i.defaultPort = true)
      ∧ (∀ P : String, world.environ "PORT" = some P → P ≠ "" →
          listenAddrs (i.run world).state.trace = [":" ++ P]) := by
  refine ⟨?_, ?_⟩
  · intro h
    rw [listenAddrs_run, chosenPort_default i world h]
    exact ⟨rfl, by cases i <;> decide⟩
  · intro P h hne
    rw [listenAddrs_run, chosenPort_override i world P h hne]

/-- Witness of C7: the strategy engine with `PORT` not set. -/
theorem port_default_in_range_witness :
    listenAddrs (Instance.strategyEngine.run World.plain).state.trace
        = [":" ++ Instance.strategyEngine.defaultPort]
      ∧ isPortNumber Instance.strategyEngine.defaultPort = true :=
  (port_default_in_range Instance.strategyEngine World.plain).1 (Or.inl rfl)

/-- C8, as stated, fails: with the same `PORT` the two programs do not log the
same line, so the log output is a third difference between them. -/
theorem same_up_to_port_and_body_counterexample :
    logLines (Instance.marketPipeline.run (World.ofPort (some "9090") none)).state.trace
        = ["Pipeline service starting on port 9090"]
      ∧ logLines (Instance.strategyEngine.run (World.ofPort (some "9090") none)).state.trace
        = ["Strategy service starting on port 9090"]
      ∧ logLines (Instance.marketPipeline.run (World.ofPort (some "9090") none)).state.trace
        ≠ logLines (Instance.strategyEngine.run (World.ofPort (some "9090") none)).state.trace := by
  have hm : logLines (Instance.marketPipeline.run (World.ofPort (some "9090") none)).state.trace
      = ["Pipeline service starting on port 9090"] := by
    rw [trace_eq, chosenPort_override _ _ "9090" rfl (by decide)]
    rfl
  have hs : logLines (Instance.strategyEngine.run (World.ofPort (some "9090") none)).state.trace
      = ["Strategy service starting on port 9090"] := by
    rw [trace_eq, chosenPort_override _ _ "9090" rfl (by decide)]
    rfl
  refine ⟨hm, hs, ?_⟩
  rw [hm, hs]
  decide

/-- C8, amended: the two programs differ only in the default port, the
response text and the service name of the start-up log line.  Each is the
one program `livenessMain` at its three texts; for every `PORT` value and
listener outcome the two register the same route and end with the same exit
status, with a non-empty `PORT` they listen on the same address, and every
request for a path other than `/health` gets the same response from both,
while `/health` gets the same status. -/
theorem same_up_to_three_texts :
    marketPipeline.main
        = livenessMain "8080" "Pipeline service healthy" "Pipeline service starting on port %s"
      ∧ strategyEngine.main
        = livenessMain "8081" "Strategy service healthy" "Strategy service starting on port %s"
      ∧ (∀ (port outcome : Option String),
          handledPatterns (Instance.marketPipeline.run (World.ofPort port outcome)).state.trace
              = handledPatterns
                  (Instance.strategyEngine.run (World.ofPort port outcome)).state.trace
            ∧ (Instance.marketPipeline.run (World.ofPort port outcome)).exitStatus
              = (Instance.strategyEngine.run (World.ofPort port outcome)).exitStatus)
      ∧ (∀ (P : String) (outcome : Option String), P ≠ "" →
          listenAddrs (Instance.marketPipeline.run (World.ofPort (some P) outcome)).state.trace
            = listenAddrs
                (Instance.strategyEngine.run (World.ofPort (some P) outcome)).state.trace)
      ∧ (∀ (world : World) (render : String → String → String) (r : Request),
          (r.path ≠ "/health" →
            http.respond render (Instance.marketPipeline.served world) r
              = http.respond render (Instance.strategyEngine.served world) r)
          ∧ (http.respond render (Instance.marketPipeline.served world) r).status
              = (http.respond render (Instance.strategyEngine.served world) r).status) := by
  refine ⟨rfl, rfl, ?_, ?_, ?_⟩
  · intro port outcome
    refine ⟨?_, ?_⟩
    · rw [trace_eq, trace_eq]
      cases outcome <;> simp [World.ofPort, handledPatterns]
    · rw [exitStatus_run, exitStatus_run]
      rfl
  · intro P outcome hne
    rw [listenAddrs_run, listenAddrs_run, chosenPort_override _ _ P rfl hne,
      chosenPort_override _ _ P rfl hne]
  · intro world render r
    rw [served_eq, served_eq]
    by_cases h : r.path = "/health"
    · refine ⟨fun hn => absurd h hn, ?_⟩
      rw [respond_health render _ r h, respond_health render _ r h]
    · have e1 := respond_other_eq_empty render Instance.marketPipeline.healthBody r h
      have e2 := respond_other_eq_empty render Instance.strategyEngine.healthBody r h
      exact ⟨fun _ => e1.trans e2.symm, by rw [e1, e2]⟩

/-- Witness of C8: with `PORT` set to 9090 both programs listen on `:9090`. -/
theorem same_up_to_three_texts_witness :
    listenAddrs (Instance.marketPipeline.run (World.ofPort (some "9090") none)).state.trace
      = listenAddrs (Instance.strategyEngine.run (World.ofPort (some "9090") none)).state.trace :=
  same_up_to_three_texts.2.2.2.1 "9090" none (by decide)

/-- C9: in the trace of every run exactly one line is logged before the
listen call; the line ends in the chosen port (the override when it is not
empty, otherwise the default), the listen address is built from the same
string, and no listen call comes before the line. -/
theorem one_log_line_before_listen (i : Instance) (world : World) :
    ∃ after : List Event,
      (i.run world).state.trace
          = [Event.handle "/health", Event.log (i.startText ++ i.chosenPort world),
              Event.listen (":" ++ i.chosenPort world)] ++ after
        ∧ logLines ((i.run world).state.trace.take 2) = [i.startText ++ i.chosenPort world]
        ∧ listenAddrs ((i.run world).state.trace.take 2) = []
        ∧ listenAddrs after = [] := by
  rw [trace_eq]
  refine ⟨_, rfl, ?_, ?_, ?_⟩
  · simp [logLines]
  · simp [listenAddrs]
  · cases world.listenAndServe (":" ++ i.chosenPort world) <;> simp [listenAddrs]

/-- C10, as stated, fails: with the default port the pipeline hands the
address `:8080` to the listener, not `0.0.0.0:8080`. -/
theorem listen_address_counterexample :
    listenAddrs (Instance.marketPipeline.run World.plain).state.trace = [":8080"]
      ∧ listenAddrs (Instance.marketPipeline.run World.plain).state.trace
        ≠ ["0.0.0.0:" ++ "8080"] := by
  have h : listenAddrs (Instance.marketPipeline.run World.plain).state.trace = [":8080"] := by
    rw [listenAddrs_run, chosenPort_default _ _ (Or.inl rfl)]
    rfl
  refine ⟨h, ?_⟩
  rw [h]
  decide

/-- C10, amended: for every instance and every chosen port string `P`, the
address handed to the listener is a colon followed by `P`: the host part is
empty and the port part is exactly `P`. -/
theorem listen_address_is_colon_port (i : Instance) (world : World) :
    (i.run world).state.listener.map Prod.fst = some (":" ++ i.chosenPort world)
      ∧ listenAddrs (i.run world).state.trace = [":" ++ i.chosenPort world]
      ∧ (":" ++ i.chosenPort world).data = ':' :: (i.chosenPort world).data := by
  refine ⟨?_, listenAddrs_run i world, ?_⟩
  · rw [listener_run]
    rfl
  · simp

end TradingSystem
